import Mathlib

/-!
# Verification of the mper Discord-permission scanner

A shallow embedding of `mper/permissions.py` and `mper/mper.py`:
the permission tables, the AST-based permission visitor, the per-file and
per-directory scanners, the bitmask calculator and the invite-link builder,
together with theorems settling the specification's claims about them.

Python `set[str]` values are modelled as duplicate-free `List String`
accumulators (`pySetAdd` adds an element only if absent, mirroring
`set.add`); Python `dict` literals become association lists; `str.lower()`
becomes `pyLower` (character-wise lowercasing, which agrees with Python on
the ASCII identifiers involved here).
-/

/-- Model of Python `str.lower()` (character-wise; the scanner only ever
lowercases ASCII identifiers). -/
def pyLower (s : String) : String := ⟨s.data.map Char.toLower⟩

/-- Table `PERMISSIONS` from `mper/permissions.py`: canonical permission name to
bit value.  Bits 47 and 48 are reserved/unused, exactly as in the source. -/
def PERMISSIONS : List (String × Nat) := [
  ("create_instant_invite", 1 <<< 0),
  ("kick_members", 1 <<< 1),
  ("ban_members", 1 <<< 2),
  ("administrator", 1 <<< 3),
  ("manage_channels", 1 <<< 4),
  ("manage_guild", 1 <<< 5),
  ("add_reactions", 1 <<< 6),
  ("view_audit_log", 1 <<< 7),
  ("priority_speaker", 1 <<< 8),
  ("stream", 1 <<< 9),
  ("view_channel", 1 <<< 10),
  ("send_messages", 1 <<< 11),
  ("send_tts_messages", 1 <<< 12),
  ("manage_messages", 1 <<< 13),
  ("embed_links", 1 <<< 14),
  ("attach_files", 1 <<< 15),
  ("read_message_history", 1 <<< 16),
  ("mention_everyone", 1 <<< 17),
  ("use_external_emojis", 1 <<< 18),
  ("view_guild_insights", 1 <<< 19),
  ("connect", 1 <<< 20),
  ("speak", 1 <<< 21),
  ("mute_members", 1 <<< 22),
  ("deafen_members", 1 <<< 23),
  ("move_members", 1 <<< 24),
  ("use_vad", 1 <<< 25),
  ("change_nickname", 1 <<< 26),
  ("manage_nicknames", 1 <<< 27),
  ("manage_roles", 1 <<< 28),
  ("manage_webhooks", 1 <<< 29),
  ("manage_guild_expressions", 1 <<< 30),
  ("use_application_commands", 1 <<< 31),
  ("request_to_speak", 1 <<< 32),
  ("manage_events", 1 <<< 33),
  ("manage_threads", 1 <<< 34),
  ("create_public_threads", 1 <<< 35),
  ("create_private_threads", 1 <<< 36),
  ("use_external_stickers", 1 <<< 37),
  ("send_messages_in_threads", 1 <<< 38),
  ("use_embedded_activities", 1 <<< 39),
  ("moderate_members", 1 <<< 40),
  ("view_creator_monetization_analytics", 1 <<< 41),
  ("use_soundboard", 1 <<< 42),
  ("create_guild_expressions", 1 <<< 43),
  ("create_events", 1 <<< 44),
  ("use_external_sounds", 1 <<< 45),
  ("send_voice_messages", 1 <<< 46),
  ("send_polls", 1 <<< 49),
  ("use_external_apps", 1 <<< 50)]

/-- Table `PERMISSION_ALIASES` from `mper/permissions.py`: old names to canonical
names. -/
def PERMISSION_ALIASES : List (String × String) := [
  ("read_messages", "view_channel"),
  ("send_message", "send_messages"),
  ("external_emojis", "use_external_emojis"),
  ("external_stickers", "use_external_stickers"),
  ("manage_emojis", "manage_guild_expressions"),
  ("manage_emojis_and_stickers", "manage_guild_expressions"),
  ("manage_permissions", "manage_roles"),
  ("use_voice_activity", "use_vad"),
  ("go_live", "stream"),
  ("timeout_members", "moderate_members"),
  ("use_slash_commands", "use_application_commands")]

/-- Table `METHOD_TO_PERMISSIONS` from `mper/permissions.py`: discord.py method
names to heuristically required permission names. -/
def METHOD_TO_PERMISSIONS : List (String × List String) := [
  ("ban", ["ban_members"]),
  ("unban", ["ban_members"]),
  ("kick", ["kick_members"]),
  ("timeout", ["moderate_members"]),
  ("edit", []),
  ("send", ["send_messages"]),
  ("delete", []),
  ("purge", ["manage_messages", "read_message_history"]),
  ("pin", ["manage_messages"]),
  ("unpin", ["manage_messages"]),
  ("publish", ["send_messages", "manage_messages"]),
  ("add_reaction", ["add_reactions"]),
  ("clear_reactions", ["manage_messages"]),
  ("remove_reaction", []),
  ("create_text_channel", ["manage_channels"]),
  ("create_voice_channel", ["manage_channels"]),
  ("create_category", ["manage_channels"]),
  ("create_stage_channel", ["manage_channels"]),
  ("create_forum", ["manage_channels"]),
  ("delete_channel", ["manage_channels"]),
  ("create_role", ["manage_roles"]),
  ("delete_role", ["manage_roles"]),
  ("add_roles", ["manage_roles"]),
  ("remove_roles", ["manage_roles"]),
  ("create_webhook", ["manage_webhooks"]),
  ("delete_webhook", ["manage_webhooks"]),
  ("webhooks", ["manage_webhooks"]),
  ("create_thread", ["create_public_threads"]),
  ("archive", ["manage_threads"]),
  ("unarchive", ["manage_threads"]),
  ("join_thread", ["send_messages_in_threads"]),
  ("move_to", ["move_members"]),
  ("disconnect", ["move_members"]),
  ("create_invite", ["create_instant_invite"]),
  ("invites", ["manage_guild"]),
  ("fetch_audit_logs", ["view_audit_log"]),
  ("audit_logs", ["view_audit_log"]),
  ("create_custom_emoji", ["manage_guild_expressions"]),
  ("delete_emoji", ["manage_guild_expressions"]),
  ("create_sticker", ["manage_guild_expressions"]),
  ("delete_sticker", ["manage_guild_expressions"]),
  ("create_scheduled_event", ["manage_events"]),
  ("delete_scheduled_event", ["manage_events"])]

/-- List `PERMISSION_DECORATORS` (user-side) from `mper/permissions.py`. -/
def PERMISSION_DECORATORS : List String := ["has_permissions", "has_guild_permissions"]

/-- List `BOT_PERMISSION_DECORATORS` from `mper/permissions.py`. -/
def BOT_PERMISSION_DECORATORS : List String :=
  ["bot_has_permissions", "bot_has_guild_permissions"]

/-- List `APP_COMMAND_PERMISSION_DECORATORS` from `mper/permissions.py`. -/
def APP_COMMAND_PERMISSION_DECORATORS : List String := ["has_permissions"]

/-- List `APP_COMMAND_BOT_PERMISSION_DECORATORS` from `mper/permissions.py`. -/
def APP_COMMAND_BOT_PERMISSION_DECORATORS : List String := ["bot_has_permissions"]

/-- List `WRAPPER_DECORATORS` from `mper/permissions.py`: decorators that can
contain nested permission checks. -/
def WRAPPER_DECORATORS : List String := ["check_any", "check"]

/-- List `PERMISSION_CLASSES` from `mper/permissions.py`. -/
def PERMISSION_CLASSES : List String := ["Permissions", "PermissionOverwrite"]

/-- List `PERMISSION_ATTRIBUTES` from `mper/permissions.py`. -/
def PERMISSION_ATTRIBUTES : List String :=
  ["guild_permissions", "permissions", "app_permissions", "resolved_permissions"]

/-- Function `get_permission_value` from `mper/permissions.py`: canonical names first,
then one alias hop. -/
def get_permission_value (name : String) : Option Nat :=
  let name_lower := pyLower name
  match PERMISSIONS.lookup name_lower with
  | some value => some value
  | none =>
    match PERMISSION_ALIASES.lookup name_lower with
    | some canonical => PERMISSIONS.lookup canonical
    | none => none

/-- Loop body of `calculate_permission_integer`: `total |= value` when the
name resolves, otherwise the accumulator is unchanged. -/
def calcOrStep (total : Nat) (name : String) : Nat :=
  match get_permission_value name with
  | some value => total ||| value
  | none => total

/-- Function `calculate_permission_integer` from `mper/permissions.py`.  The Python
function folds over a `set[str]`; the model folds over the list of its
elements. -/
def calculate_permission_integer (permission_names : List String) : Nat :=
  permission_names.foldl calcOrStep 0

/-- The bit value a single name contributes to the fold: its resolved value,
or 0 when it does not resolve. -/
def permission_bit (name : String) : Nat := (get_permission_value name).getD 0

/-- Function `create_invite_link` from `mper/mper.py`.  `none` for `scopes` models the
Python default argument `scopes=None`. -/
def create_invite_link (client_id : String) (permissions : Nat)
    (scopes : Option (List String)) : String :=
  let scopes := match scopes with
    | none => ["bot", "applications.commands"]
    | some ss => ss
  let scope_str := String.intercalate "%20" scopes
  "https://discord.com/oauth2/authorize?client_id=" ++ client_id ++
    "&permissions=" ++ toString permissions ++ "&scope=" ++ scope_str

section CalcLemmas

lemma calcOrStep_eq (b : Nat) (n : String) : calcOrStep b n = b ||| permission_bit n := by
  unfold calcOrStep permission_bit
  cases get_permission_value n <;> simp

lemma foldl_calcOrStep_shift (l : List String) (b : Nat) :
    l.foldl calcOrStep b = b ||| l.foldl calcOrStep 0 := by
  induction l generalizing b with
  | nil => simp
  | cons x l ih =>
    simp only [List.foldl_cons]
    rw [ih (calcOrStep b x), ih (calcOrStep 0 x), calcOrStep_eq, calcOrStep_eq,
      Nat.zero_or, Nat.or_assoc]

lemma calc_cons (x : String) (l : List String) :
    calculate_permission_integer (x :: l) =
      permission_bit x ||| calculate_permission_integer l := by
  unfold calculate_permission_integer
  rw [List.foldl_cons, foldl_calcOrStep_shift, calcOrStep_eq, Nat.zero_or]

lemma calc_absorb_mem {x : String} {l : List String} (h : x ∈ l) :
    permission_bit x ||| calculate_permission_integer l =
      calculate_permission_integer l := by
  induction l with
  | nil => cases h
  | cons y l ih =>
    rw [calc_cons]
    rcases List.mem_cons.mp h with rfl | h
    · rw [← Nat.or_assoc, Nat.or_self]
    · rw [← Nat.or_assoc, Nat.or_comm (permission_bit x), Nat.or_assoc, ih h]

lemma calc_absorb_subset {l₁ l₂ : List String} (h : ∀ x ∈ l₁, x ∈ l₂) :
    calculate_permission_integer l₁ ||| calculate_permission_integer l₂ =
      calculate_permission_integer l₂ := by
  induction l₁ with
  | nil =>
    show calculate_permission_integer [] ||| _ = _
    rw [show calculate_permission_integer [] = 0 from rfl, Nat.zero_or]
  | cons x l ih =>
    rw [calc_cons, Nat.or_assoc, ih (fun y hy => h y (List.mem_cons_of_mem x hy)),
      calc_absorb_mem (h x (List.mem_cons_self x l))]

end CalcLemmas

/-- Claim C1: `calculate_permission_integer` is the bitwise-OR fold of the
bit values of the names that resolve (unresolvable names contribute 0), it
returns 0 on the empty set, and it is invariant under reordering and
duplication of the input — any two lists with the same elements give the
same integer. -/
theorem claim_c1 :
    calculate_permission_integer [] = 0 ∧
    (∀ l : List String,
      calculate_permission_integer l =
        l.foldr (fun n acc => permission_bit n ||| acc) 0) ∧
    (∀ l₁ l₂ : List String, (∀ x, x ∈ l₁ ↔ x ∈ l₂) →
      calculate_permission_integer l₁ = calculate_permission_integer l₂) := by
  refine ⟨rfl, ?_, ?_⟩
  · intro l
    induction l with
    | nil => rfl
    | cons x l ih => rw [calc_cons, List.foldr_cons, ih]
  · intro l₁ l₂ h
    have h₁ := @calc_absorb_subset l₁ l₂ (fun x hx => (h x).mp hx)
    have h₂ := @calc_absorb_subset l₂ l₁ (fun x hx => (h x).mpr hx)
    rw [← h₂, Nat.or_comm, h₁]

/-- Witness for C1: the set-invariance hypothesis holds at a concrete pair of
lists that differ by reordering and duplication. -/
theorem claim_c1_witness :
    calculate_permission_integer ["kick_members", "ban_members", "ban_members"] =
      calculate_permission_integer ["ban_members", "kick_members"] :=
  claim_c1.2.2 _ _ (by intro x; simp [List.mem_cons]; tauto)

/-- Claim C9: every alias resolves in a single hop: for each pair `(A, C)` in
the alias table, `get_permission_value A = get_permission_value C`, the
canonical name `C` is present in the permission table, the alias lookup
itself succeeds, and no alias maps to another alias. -/
theorem claim_c9 :
    ∀ p ∈ PERMISSION_ALIASES,
      get_permission_value p.1 = get_permission_value p.2 ∧
      (PERMISSIONS.lookup p.2).isSome = true ∧
      (get_permission_value p.1).isSome = true ∧
      PERMISSION_ALIASES.lookup p.2 = none := by decide

/-- Witness for C9: the alias-table membership hypothesis discharged at the
concrete alias `read_messages -> view_channel`. -/
theorem claim_c9_witness :
    get_permission_value "read_messages" = get_permission_value "view_channel" ∧
    (PERMISSIONS.lookup "view_channel").isSome = true ∧
    (get_permission_value "read_messages").isSome = true ∧
    PERMISSION_ALIASES.lookup "view_channel" = none :=
  claim_c9 ("read_messages", "view_channel") (by decide)

/-- Claim C10: `create_invite_link` is exactly the fixed URL template with
the client id, the decimal permission integer, and the scopes joined by the
literal separator `%20`; on the concrete input `("123", 6, ["bot"])` it
returns the exact expected URL, and omitting the scope list uses the default
`["bot", "applications.commands"]`. -/
theorem claim_c10 :
    (∀ (client_id : String) (permissions : Nat) (scopes : List String),
      scopes ≠ [] →
      create_invite_link client_id permissions (some scopes) =
        "https://discord.com/oauth2/authorize?client_id=" ++ client_id ++
          "&permissions=" ++ toString permissions ++ "&scope=" ++
          String.intercalate "%20" scopes) ∧
    create_invite_link "123" 6 (some ["bot"]) =
      "https://discord.com/oauth2/authorize?client_id=123&permissions=6&scope=bot" ∧
    (∀ (client_id : String) (permissions : Nat),
      create_invite_link client_id permissions none =
        create_invite_link client_id permissions
          (some ["bot", "applications.commands"])) :=
  ⟨fun _ _ _ _ => rfl, by decide, fun _ _ => rfl⟩

/-- Witness for C10: the non-empty-scopes hypothesis discharged at the
concrete scope list `["bot"]`. -/
theorem claim_c10_witness :
    create_invite_link "123" 6 (some ["bot"]) =
      "https://discord.com/oauth2/authorize?client_id=" ++ "123" ++
        "&permissions=" ++ toString (6 : Nat) ++ "&scope=" ++
        String.intercalate "%20" ["bot"] :=
  claim_c10.1 "123" 6 ["bot"] (by decide)

/-!
## AST model and the permission visitor

The visitor in `mper/mper.py` inspects Python AST nodes.  The model covers
the node shapes the visitor distinguishes: names, attribute accesses,
literal constants, calls (with positional and keyword arguments), and an
`other` constructor for every remaining expression shape (which the visitor
treats uniformly).
-/

/-- Literal constant values (`ast.Constant.value`) distinguished by the
scanner: `None`, booleans, integers and strings. -/
inductive PyConst where
  | pyNone : PyConst
  | pyBool : Bool → PyConst
  | pyInt : Int → PyConst
  | pyStr : String → PyConst
deriving DecidableEq

/-- Python `bool(...)` on a literal constant. -/
def PyConst.toBool : PyConst → Bool
  | .pyNone => false
  | .pyBool b => b
  | .pyInt n => n != 0
  | .pyStr s => s != ""

/-- Python expression nodes, as distinguished by `PermissionVisitor`.
A keyword argument is a pair of an optional keyword name (`None` for
`**kwargs`) and a value expression. -/
inductive PyExpr where
  | name : String → PyExpr
  | attribute : PyExpr → String → PyExpr
  | constant : PyConst → PyExpr
  | call : PyExpr → List PyExpr → List (Option String × PyExpr) → PyExpr
  | other : PyExpr

/-- Python statement nodes relevant to the visitor: (async) function
definitions with their decorator lists and bodies, expression statements,
and a catch-all. -/
inductive PyStmt where
  | functionDef : List PyExpr → List PyStmt → PyStmt
  | asyncFunctionDef : List PyExpr → List PyStmt → PyStmt
  | exprStmt : PyExpr → PyStmt
  | passStmt : PyStmt

/-- The mutable state of `PermissionVisitor` (`__init__`): five permission
sets and the warning list. -/
structure VState where
  user_permissions : List String
  bot_permissions : List String
  inferred_permissions : List String
  permission_objects : List String
  attribute_permissions : List String
  warnings : List String
deriving DecidableEq

/-- The freshly constructed visitor: all sets and the warning list empty. -/
def initVisitor : VState := ⟨[], [], [], [], [], []⟩

/-- Python `set.add`: append the element only if it is not already present. -/
def pySetAdd (s : List String) (x : String) : List String :=
  if x ∈ s then s else s ++ [x]

/-- Method `PermissionVisitor._add_permission`: resolve the name against the
canonical table, then the alias table; on failure append an
"Unknown permission" warning.  Returns the updated target set and the
updated warning list. -/
def add_permission (perm_name : String) (target_set : List String)
    (warnings : List String) : List String × List String :=
  let perm_lower := pyLower perm_name
  if (PERMISSIONS.lookup perm_lower).isSome then
    (pySetAdd target_set perm_lower, warnings)
  else
    match PERMISSION_ALIASES.lookup perm_lower with
    | some canonical => (pySetAdd target_set canonical, warnings)
    | none => (target_set, warnings ++ ["Unknown permission: " ++ perm_name])

/-- Apply `_add_permission` targeting `self.user_permissions`. -/
def addUserPermission (perm_name : String) (s : VState) : VState :=
  let r := add_permission perm_name s.user_permissions s.warnings
  { s with user_permissions := r.1, warnings := r.2 }

/-- Apply `_add_permission` targeting `self.bot_permissions`. -/
def addBotPermission (perm_name : String) (s : VState) : VState :=
  let r := add_permission perm_name s.bot_permissions s.warnings
  { s with bot_permissions := r.1, warnings := r.2 }

/-- Apply `_add_permission` targeting `self.permission_objects`. -/
def addObjectPermission (perm_name : String) (s : VState) : VState :=
  let r := add_permission perm_name s.permission_objects s.warnings
  { s with permission_objects := r.1, warnings := r.2 }

/-- Apply `_add_permission` targeting `self.attribute_permissions`. -/
def addAttributePermission (perm_name : String) (s : VState) : VState :=
  let r := add_permission perm_name s.attribute_permissions s.warnings
  { s with attribute_permissions := r.1, warnings := r.2 }

/-- Method `PermissionVisitor._get_decorator_name`: a bare name, or the final
attribute segment; every other shape gives the empty string. -/
def get_decorator_name : PyExpr → String
  | .name id => id
  | .attribute _ attr => attr
  | _ => ""

/-- Method `PermissionVisitor._get_call_name` (same resolution as
`_get_decorator_name`). -/
def get_call_name : PyExpr → String
  | .name id => id
  | .attribute _ attr => attr
  | _ => ""

/-- Method `PermissionVisitor._is_truthy_value`: a literal constant is truthy per
Python `bool(...)`; a name reference and every other expression shape are
conservatively treated as truthy. -/
def is_truthy_value : PyExpr → Bool
  | .constant c => c.toBool
  | _ => true

/-- Keyword loop of the recognized user/bot permission-decorator branch of
`_extract_permissions_from_decorator`: for each keyword with a name, lower
it and, when the value is truthy, add it to the bot or user set. -/
def processPermDecorator (decorator_name : String) (s : VState)
    (keywords : List (Option String × PyExpr)) : VState :=
  let is_bot_decorator :=
    BOT_PERMISSION_DECORATORS.contains decorator_name ||
    APP_COMMAND_BOT_PERMISSION_DECORATORS.contains decorator_name
  let is_user_decorator :=
    PERMISSION_DECORATORS.contains decorator_name ||
    APP_COMMAND_PERMISSION_DECORATORS.contains decorator_name ||
    decorator_name == "default_permissions"
  if is_bot_decorator || is_user_decorator then
    keywords.foldl (fun st kw =>
      match kw.1 with
      | some arg =>
        let perm_name := pyLower arg
        if is_truthy_value kw.2 then
          if is_bot_decorator then addBotPermission perm_name st
          else addUserPermission perm_name st
        else st
      | none => st) s
  else s

mutual

/-- Method `PermissionVisitor._extract_permissions_from_decorator`: wrapper
decorators recurse into every positional and keyword argument; recognized
user/bot permission decorators process their keyword arguments; every other
decorator shape is ignored.  (The `is_bot` parameter is threaded through the
wrapper recursion exactly as in the source, where it is otherwise unused.) -/
def extract_permissions_from_decorator (is_bot : Bool) (s : VState) :
    PyExpr → VState
  | .call func args keywords =>
    let decorator_name := get_decorator_name func
    if WRAPPER_DECORATORS.contains decorator_name then
      extractFromKeywords is_bot (extractFromArgs is_bot s args) keywords
    else
      processPermDecorator decorator_name s keywords
  | _ => s

/-- The wrapper-decorator loop over positional arguments. -/
def extractFromArgs (is_bot : Bool) (s : VState) : List PyExpr → VState
  | [] => s
  | arg :: rest =>
    extractFromArgs is_bot (extract_permissions_from_decorator is_bot s arg) rest

/-- The wrapper-decorator loop over keyword-argument values. -/
def extractFromKeywords (is_bot : Bool) (s : VState) :
    List (Option String × PyExpr) → VState
  | [] => s
  | (_, value) :: rest =>
    extractFromKeywords is_bot
      (extract_permissions_from_decorator is_bot s value) rest

end

/-- Method `PermissionVisitor._check_decorators`: extract from each decorator in
order, with the default `is_bot = False`. -/
def check_decorators (s : VState) (decorators : List PyExpr) : VState :=
  decorators.foldl (fun st d => extract_permissions_from_decorator false st d) s

/-- Keyword loop shared by the `update` / permission-class branches of
`visit_Call`: `if keyword.arg and self._is_truthy_value(keyword.value)`. -/
def objectKeywordLoop (s : VState)
    (keywords : List (Option String × PyExpr)) : VState :=
  keywords.foldl (fun st kw =>
    match kw.1 with
    | some arg =>
      if arg != "" && is_truthy_value kw.2 then addObjectPermission arg st
      else st
    | none => st) s

/-- The pattern-matching part of `PermissionVisitor.visit_Call` (before
`generic_visit`): heuristic method mapping into `inferred_permissions`,
`update` calls and permission-class constructions into
`permission_objects`. -/
def visitCallEffect (s : VState) (func : PyExpr)
    (keywords : List (Option String × PyExpr)) : VState :=
  match func with
  | .attribute _ method_name =>
    let s :=
      match METHOD_TO_PERMISSIONS.lookup method_name with
      | some perms =>
        { s with inferred_permissions := perms.foldl pySetAdd s.inferred_permissions }
      | none => s
    let s := if method_name == "update" then objectKeywordLoop s keywords else s
    if PERMISSION_CLASSES.contains method_name then objectKeywordLoop s keywords
    else s
  | .name id =>
    if PERMISSION_CLASSES.contains id then objectKeywordLoop s keywords else s
  | _ => s

/-- The pattern-matching part of `PermissionVisitor.visit_Attribute` (before
`generic_visit`): a two-level attribute chain whose base attribute is a
recognized permission container adds the outer attribute name to
`attribute_permissions` when it resolves. -/
def visitAttributeEffect (s : VState) (value : PyExpr) (attr : String) : VState :=
  match value with
  | .attribute _ parent_attr =>
    if PERMISSION_ATTRIBUTES.contains parent_attr then
      let perm_name := pyLower attr
      if (PERMISSIONS.lookup perm_name).isSome ||
          (PERMISSION_ALIASES.lookup perm_name).isSome then
        addAttributePermission perm_name s
      else s
    else s
  | _ => s

mutual

/-- The expression part of `ast.NodeVisitor.visit`: `visit_Call` and
`visit_Attribute` fire their pattern matchers and then `generic_visit`
descends into the child nodes in field order. -/
def visitExpr (s : VState) : PyExpr → VState
  | .call func args keywords =>
    let s1 := visitCallEffect s func keywords
    let s2 := visitExpr s1 func
    let s3 := visitExprList s2 args
    visitKwList s3 keywords
  | .attribute value _attr =>
    let s1 := visitAttributeEffect s value _attr
    visitExpr s1 value
  | _ => s

/-- Traversal `generic_visit` over a list of child expressions. -/
def visitExprList (s : VState) : List PyExpr → VState
  | [] => s
  | e :: rest => visitExprList (visitExpr s e) rest

/-- Traversal `generic_visit` over keyword-argument nodes (each visits its value). -/
def visitKwList (s : VState) : List (Option String × PyExpr) → VState
  | [] => s
  | (_, value) :: rest => visitKwList (visitExpr s value) rest

end

mutual

/-- The statement part of the visitor: `visit_FunctionDef` and
`visit_AsyncFunctionDef` check the decorator list and then `generic_visit`
the children (per `ast.FunctionDef._fields`, the body precedes the
decorator list). -/
def visitStmt (s : VState) : PyStmt → VState
  | .functionDef decorator_list body =>
    let s1 := check_decorators s decorator_list
    let s2 := visitStmts s1 body
    visitExprList s2 decorator_list
  | .asyncFunctionDef decorator_list body =>
    let s1 := check_decorators s decorator_list
    let s2 := visitStmts s1 body
    visitExprList s2 decorator_list
  | .exprStmt e => visitExpr s e
  | .passStmt => s

/-- Traversal `generic_visit` over a list of statements (a module body or a function
body). -/
def visitStmts (s : VState) : List PyStmt → VState
  | [] => s
  | st :: rest => visitStmts (visitStmt s st) rest

end

/-!
## File and directory scanning

`scan_file` reads, decodes and parses a file; each failure is caught and
converted to a single warning with all category sets left empty.  The model
represents the outcome of the read/decode/parse pipeline for one file as a
`ParseOutcome`.  `scan_directory` is modelled as a fold over the list of
`.py` files produced by the directory walk (traversal and exclusion
filtering are outside the claims considered here).
-/

/-- Outcome of reading, decoding and parsing one file: an `IOError/OSError`
while reading, a `UnicodeDecodeError`, a `SyntaxError` from `ast.parse`
(each carrying the exception text), or a successfully parsed module body. -/
inductive ParseOutcome where
  | ioError : String → ParseOutcome
  | decodeError : String → ParseOutcome
  | parseFailure : String → ParseOutcome
  | parsedModule : List PyStmt → ParseOutcome

/-- Function `scan_file` from `mper/mper.py`: failures return the empty result with
exactly one warning; a parsed module is visited from the fresh visitor
state. -/
def scan_file (file_path : String) : ParseOutcome → VState
  | .ioError e =>
    { initVisitor with warnings := ["Could not read file " ++ file_path ++ ": " ++ e] }
  | .decodeError e =>
    { initVisitor with warnings := ["Encoding error in " ++ file_path ++ ": " ++ e] }
  | .parseFailure e =>
    { initVisitor with warnings := ["Syntax error in " ++ file_path ++ ": " ++ e] }
  | .parsedModule body => visitStmts initVisitor body

/-- Python `set.update`: add every element of the second set to the first. -/
def setUnion (s t : List String) : List String := t.foldl pySetAdd s

/-- The running accumulator of the `scan_directory` loop. -/
structure DirectoryAcc where
  user_permissions : List String
  bot_permissions : List String
  inferred_permissions : List String
  permission_objects : List String
  attribute_permissions : List String
  all_warnings : List String
  files_scanned : Nat
  files_with_errors : Nat

/-- The empty accumulator at the start of `scan_directory`. -/
def initDirectoryAcc : DirectoryAcc := ⟨[], [], [], [], [], [], 0, 0⟩

/-- One iteration of the `scan_directory` loop for a single `.py` file:
scan it, union each category set into the aggregate, extend the warnings,
count the file, and count it as a file with errors exactly when its warning
list is non-empty. -/
def scanStep (acc : DirectoryAcc) (file : String × ParseOutcome) : DirectoryAcc :=
  let result := scan_file file.1 file.2
  { user_permissions := setUnion acc.user_permissions result.user_permissions,
    bot_permissions := setUnion acc.bot_permissions result.bot_permissions,
    inferred_permissions := setUnion acc.inferred_permissions result.inferred_permissions,
    permission_objects := setUnion acc.permission_objects result.permission_objects,
    attribute_permissions := setUnion acc.attribute_permissions result.attribute_permissions,
    all_warnings := acc.all_warnings ++ result.warnings,
    files_scanned := acc.files_scanned + 1,
    files_with_errors :=
      if result.warnings.isEmpty then acc.files_with_errors
      else acc.files_with_errors + 1 }

/-- The dictionary returned by `scan_directory`. -/
structure AggregateResult where
  user_permissions : List String
  bot_permissions : List String
  inferred_permissions : List String
  permission_objects : List String
  attribute_permissions : List String
  declared_permissions : List String
  all_bot_permissions : List String
  warnings : List String
  files_scanned : Nat
  files_with_errors : Nat

/-- Function `scan_directory` from `mper/mper.py`, over the list of `.py` files the
walk yields: fold `scanStep`, then compute the invite-link permission set
(`bot_has_permissions` plus inferred when enabled) and the
backward-compatible `declared_permissions`. -/
def scan_directory (files : List (String × ParseOutcome))
    (include_inferred : Bool) : AggregateResult :=
  let acc := files.foldl scanStep initDirectoryAcc
  let all_bot_permissions :=
    if include_inferred then setUnion acc.bot_permissions acc.inferred_permissions
    else acc.bot_permissions
  { user_permissions := acc.user_permissions,
    bot_permissions := acc.bot_permissions,
    inferred_permissions := acc.inferred_permissions,
    permission_objects := acc.permission_objects,
    attribute_permissions := acc.attribute_permissions,
    declared_permissions := setUnion acc.user_permissions acc.bot_permissions,
    all_bot_permissions := all_bot_permissions,
    warnings := acc.all_warnings,
    files_scanned := acc.files_scanned,
    files_with_errors := acc.files_with_errors }

/-!
## Concrete inputs used by the claims
-/

/-- Decorator `bot_has_permissions(ban_members=True, kick_members=True)`. -/
def botBanKickDecorator : PyExpr :=
  .call (.name "bot_has_permissions") []
    [(some "ban_members", .constant (.pyBool true)),
     (some "kick_members", .constant (.pyBool true))]

/-- Decorator `commands.has_permissions(manage_messages=True)`. -/
def nestedHasPerm : PyExpr :=
  .call (.attribute (.name "commands") "has_permissions") []
    [(some "manage_messages", .constant (.pyBool true))]

/-- A function definition decorated with
`@commands.has_permissions(teleport=True)` — `teleport` is not a
permission name. -/
def teleportDef : PyStmt :=
  .functionDef [.call (.attribute (.name "commands") "has_permissions") []
    [(some "teleport", .constant (.pyBool true))]] []

/-!
## Aggregation lemmas
-/

/-- State `a` is state `b` after additionally scanning one file that contributed empty
permission sets and a non-empty warning list: all five category sets agree
and both counters are one larger. -/
def AccShifted (a b : DirectoryAcc) : Prop :=
  a.user_permissions = b.user_permissions ∧
  a.bot_permissions = b.bot_permissions ∧
  a.inferred_permissions = b.inferred_permissions ∧
  a.permission_objects = b.permission_objects ∧
  a.attribute_permissions = b.attribute_permissions ∧
  a.files_scanned = b.files_scanned + 1 ∧
  a.files_with_errors = b.files_with_errors + 1

lemma scanStep_shifted {a b : DirectoryAcc} (f : String × ParseOutcome)
    (h : AccShifted a b) : AccShifted (scanStep a f) (scanStep b f) := by
  obtain ⟨h1, h2, h3, h4, h5, h6, h7⟩ := h
  cases hw : (scan_file f.1 f.2).warnings.isEmpty <;>
    simp [AccShifted, scanStep, hw, h1, h2, h3, h4, h5, h6, h7]

lemma foldl_scanStep_shifted (fs : List (String × ParseOutcome)) :
    ∀ {a b : DirectoryAcc}, AccShifted a b →
      AccShifted (fs.foldl scanStep a) (fs.foldl scanStep b) := by
  induction fs with
  | nil => intro a b h; exact h
  | cons f fs ih => intro a b h; exact ih (scanStep_shifted f h)

lemma foldl_scanStep_fwe (fs : List (String × ParseOutcome)) :
    ∀ acc : DirectoryAcc,
      (fs.foldl scanStep acc).files_with_errors =
        acc.files_with_errors +
          fs.countP (fun f => !(scan_file f.1 f.2).warnings.isEmpty) := by
  induction fs with
  | nil => intro acc; simp
  | cons f fs ih =>
    intro acc
    rw [List.foldl_cons, ih, List.countP_cons]
    cases hw : (scan_file f.1 f.2).warnings.isEmpty <;>
      (simp [scanStep, hw]; try omega)

/-- An outcome on which the read/decode/parse pipeline failed. -/
def isFailureOutcome : ParseOutcome → Bool
  | .parsedModule _ => false
  | _ => true

/-!
## Claims about the visitor and the scanners
-/

/-- Claim C2: visiting a function definition decorated with
`bot_has_permissions(ban_members=True, kick_members=True)` puts exactly
`ban_members` and `kick_members` into the bot set (and nothing anywhere
else), and `calculate_permission_integer` of that set is 6. -/
theorem claim_c2 :
    (visitStmt initVisitor (.functionDef [botBanKickDecorator] [])).bot_permissions =
      ["ban_members", "kick_members"] ∧
    (∀ x, x ∈ (visitStmt initVisitor (.functionDef [botBanKickDecorator] [])).bot_permissions ↔
      (x = "ban_members" ∨ x = "kick_members")) ∧
    calculate_permission_integer
      (visitStmt initVisitor (.functionDef [botBanKickDecorator] [])).bot_permissions = 6 ∧
    (visitStmt initVisitor (.functionDef [botBanKickDecorator] [])).user_permissions = [] ∧
    (visitStmt initVisitor (.functionDef [botBanKickDecorator] [])).inferred_permissions = [] ∧
    (visitStmt initVisitor (.functionDef [botBanKickDecorator] [])).permission_objects = [] ∧
    (visitStmt initVisitor (.functionDef [botBanKickDecorator] [])).attribute_permissions = [] ∧
    (visitStmt initVisitor (.functionDef [botBanKickDecorator] [])).warnings = [] := by
  refine ⟨rfl, ?_, by decide, rfl, rfl, rfl, rfl, rfl⟩
  intro x
  show x ∈ ["ban_members", "kick_members"] ↔ (x = "ban_members" ∨ x = "kick_members")
  simp

/-- Claim C3: a wrapper decorator recurses into every positional and keyword
argument, and a user-permission decorator nested inside `check_any` yields
the same state as if it appeared directly on the definition; concretely the
nested `has_permissions(manage_messages=True)` puts `manage_messages` into
the user set. -/
theorem claim_c3 :
    (∀ (is_bot : Bool) (s : VState) (func : PyExpr) (args : List PyExpr)
        (keywords : List (Option String × PyExpr)),
      WRAPPER_DECORATORS.contains (get_decorator_name func) = true →
      extract_permissions_from_decorator is_bot s (.call func args keywords) =
        extractFromKeywords is_bot (extractFromArgs is_bot s args) keywords) ∧
    extract_permissions_from_decorator false initVisitor
        (.call (.attribute (.name "commands") "check_any") [nestedHasPerm] []) =
      extract_permissions_from_decorator false initVisitor nestedHasPerm ∧
    (extract_permissions_from_decorator false initVisitor
        (.call (.attribute (.name "commands") "check_any") [nestedHasPerm] [])).user_permissions =
      ["manage_messages"] := by
  refine ⟨?_, rfl, rfl⟩
  intro is_bot s func args keywords h
  simp only [extract_permissions_from_decorator, h, if_true]

/-- Witness for C3: the wrapper-membership hypothesis holds at the concrete
wrapper `check_any` (with a positional and a keyword argument). -/
theorem claim_c3_witness :
    extract_permissions_from_decorator false initVisitor
        (.call (.name "check_any") [nestedHasPerm] [(some "x", .name "y")]) =
      extractFromKeywords false (extractFromArgs false initVisitor [nestedHasPerm])
        [(some "x", .name "y")] :=
  claim_c3.1 false initVisitor _ _ _ (by decide)

/-- Claim C4: a literal constant keyword value contributes its name exactly
when the constant is truthy, and every non-constant value expression is
treated as truthy; in particular `has_permissions(administrator=False)`
leaves the visitor state unchanged. -/
theorem claim_c4 :
    (∀ c : PyConst, is_truthy_value (.constant c) = c.toBool) ∧
    (∀ e : PyExpr, (∀ c : PyConst, e ≠ .constant c) → is_truthy_value e = true) ∧
    (∀ (s : VState) (k : String) (v : PyExpr) (dname : String),
      (dname = "has_permissions" ∨ dname = "has_guild_permissions" ∨
       dname = "bot_has_permissions" ∨ dname = "bot_has_guild_permissions") →
      extract_permissions_from_decorator false s (.call (.name dname) [] [(some k, v)]) =
        (if is_truthy_value v then
          extract_permissions_from_decorator false s
            (.call (.name dname) [] [(some k, .constant (.pyBool true))])
        else s)) ∧
    extract_permissions_from_decorator false initVisitor
        (.call (.name "has_permissions") []
          [(some "administrator", .constant (.pyBool false))]) = initVisitor := by
  refine ⟨fun c => rfl, ?_, ?_, rfl⟩
  · exact fun e h =>
      match e, h with
      | .name _, _ => rfl
      | .attribute _ _, _ => rfl
      | .constant c, h => absurd rfl (h c)
      | .call _ _ _, _ => rfl
      | .other, _ => rfl
  · intro s k v dname h
    rcases h with rfl | rfl | rfl | rfl <;> cases hv : is_truthy_value v <;>
      first
      | (show (if is_truthy_value v = true then addUserPermission (pyLower k) s else s) = _
         simp [hv]
         try rfl)
      | (show (if is_truthy_value v = true then addBotPermission (pyLower k) s else s) = _
         simp [hv]
         try rfl)

/-- Witness for C4: the non-constant hypothesis discharged at a name
reference, and the decorator-name hypothesis at `has_permissions`. -/
theorem claim_c4_witness :
    is_truthy_value (.name "flag") = true ∧
    extract_permissions_from_decorator false initVisitor
        (.call (.name "has_permissions") [] [(some "administrator", .name "flag")]) =
      (if is_truthy_value (.name "flag") then
        extract_permissions_from_decorator false initVisitor
          (.call (.name "has_permissions") []
            [(some "administrator", .constant (.pyBool true))])
      else initVisitor) :=
  ⟨claim_c4.2.1 (.name "flag") (fun c h => by cases h),
   claim_c4.2.2.1 initVisitor "administrator" (.name "flag") "has_permissions" (Or.inl rfl)⟩

/-- Claim C5: a truthy keyword whose name resolves neither directly nor via
alias only appends the warning `"Unknown permission: <name>"` and adds
nothing; scanning a file containing `has_permissions(teleport=True)` yields
exactly one warning mentioning `teleport` and five empty category sets. -/
theorem claim_c5 :
    (∀ (perm_name : String) (target_set warnings : List String),
      PERMISSIONS.lookup (pyLower perm_name) = none →
      PERMISSION_ALIASES.lookup (pyLower perm_name) = none →
      add_permission perm_name target_set warnings =
        (target_set, warnings ++ ["Unknown permission: " ++ perm_name])) ∧
    (scan_file "bot.py" (.parsedModule [teleportDef])).warnings =
      ["Unknown permission: teleport"] ∧
    (scan_file "bot.py" (.parsedModule [teleportDef])).user_permissions = [] ∧
    (scan_file "bot.py" (.parsedModule [teleportDef])).bot_permissions = [] ∧
    (scan_file "bot.py" (.parsedModule [teleportDef])).inferred_permissions = [] ∧
    (scan_file "bot.py" (.parsedModule [teleportDef])).permission_objects = [] ∧
    (scan_file "bot.py" (.parsedModule [teleportDef])).attribute_permissions = [] := by
  refine ⟨?_, rfl, rfl, rfl, rfl, rfl, rfl⟩
  intro n t w h1 h2
  simp [add_permission, h1, h2]

/-- Witness for C5: the resolution-failure hypotheses discharged at the
concrete unknown name `teleport`. -/
theorem claim_c5_witness :
    add_permission "teleport" [] [] = ([], ["Unknown permission: teleport"]) :=
  claim_c5.1 "teleport" [] [] (by decide) (by decide)

/-- Claim C6: a file whose text fails to parse (and likewise one that fails
to read or decode) scans to five empty category sets and exactly one
warning; inside a directory scan such a file increments `files_scanned` and
`files_with_errors` by exactly one and leaves every aggregated category set
exactly as it would have been without that file. -/
theorem claim_c6 :
    (∀ (file_path e : String),
      scan_file file_path (.parseFailure e) =
        { initVisitor with warnings := ["Syntax error in " ++ file_path ++ ": " ++ e] }) ∧
    (∀ (file_path e : String),
      scan_file file_path (.ioError e) =
        { initVisitor with warnings := ["Could not read file " ++ file_path ++ ": " ++ e] }) ∧
    (∀ (file_path e : String),
      scan_file file_path (.decodeError e) =
        { initVisitor with warnings := ["Encoding error in " ++ file_path ++ ": " ++ e] }) ∧
    (∀ (pre post : List (String × ParseOutcome)) (p e : String) (inc : Bool),
      (scan_directory (pre ++ (p, ParseOutcome.parseFailure e) :: post) inc).user_permissions =
        (scan_directory (pre ++ post) inc).user_permissions ∧
      (scan_directory (pre ++ (p, ParseOutcome.parseFailure e) :: post) inc).bot_permissions =
        (scan_directory (pre ++ post) inc).bot_permissions ∧
      (scan_directory (pre ++ (p, ParseOutcome.parseFailure e) :: post) inc).inferred_permissions =
        (scan_directory (pre ++ post) inc).inferred_permissions ∧
      (scan_directory (pre ++ (p, ParseOutcome.parseFailure e) :: post) inc).permission_objects =
        (scan_directory (pre ++ post) inc).permission_objects ∧
      (scan_directory (pre ++ (p, ParseOutcome.parseFailure e) :: post) inc).attribute_permissions =
        (scan_directory (pre ++ post) inc).attribute_permissions ∧
      (scan_directory (pre ++ (p, ParseOutcome.parseFailure e) :: post) inc).all_bot_permissions =
        (scan_directory (pre ++ post) inc).all_bot_permissions ∧
      (scan_directory (pre ++ (p, ParseOutcome.parseFailure e) :: post) inc).files_scanned =
        (scan_directory (pre ++ post) inc).files_scanned + 1 ∧
      (scan_directory (pre ++ (p, ParseOutcome.parseFailure e) :: post) inc).files_with_errors =
        (scan_directory (pre ++ post) inc).files_with_errors + 1) := by
  refine ⟨fun _ _ => rfl, fun _ _ => rfl, fun _ _ => rfl, ?_⟩
  intro pre post p e inc
  have e1 : (pre ++ (p, ParseOutcome.parseFailure e) :: post).foldl scanStep initDirectoryAcc =
      post.foldl scanStep (scanStep (pre.foldl scanStep initDirectoryAcc)
        (p, ParseOutcome.parseFailure e)) := by
    rw [List.foldl_append, List.foldl_cons]
  have e2 : (pre ++ post).foldl scanStep initDirectoryAcc =
      post.foldl scanStep (pre.foldl scanStep initDirectoryAcc) := by
    rw [List.foldl_append]
  have base : AccShifted
      (scanStep (pre.foldl scanStep initDirectoryAcc) (p, ParseOutcome.parseFailure e))
      (pre.foldl scanStep initDirectoryAcc) := ⟨rfl, rfl, rfl, rfl, rfl, rfl, rfl⟩
  obtain ⟨g1, g2, g3, g4, g5, g6, g7⟩ := foldl_scanStep_shifted post base
  refine ⟨?_, ?_, ?_, ?_, ?_, ?_, ?_, ?_⟩
  · show ((pre ++ (p, ParseOutcome.parseFailure e) :: post).foldl scanStep
        initDirectoryAcc).user_permissions =
      ((pre ++ post).foldl scanStep initDirectoryAcc).user_permissions
    rw [e1, e2]; exact g1
  · show ((pre ++ (p, ParseOutcome.parseFailure e) :: post).foldl scanStep
        initDirectoryAcc).bot_permissions =
      ((pre ++ post).foldl scanStep initDirectoryAcc).bot_permissions
    rw [e1, e2]; exact g2
  · show ((pre ++ (p, ParseOutcome.parseFailure e) :: post).foldl scanStep
        initDirectoryAcc).inferred_permissions =
      ((pre ++ post).foldl scanStep initDirectoryAcc).inferred_permissions
    rw [e1, e2]; exact g3
  · show ((pre ++ (p, ParseOutcome.parseFailure e) :: post).foldl scanStep
        initDirectoryAcc).permission_objects =
      ((pre ++ post).foldl scanStep initDirectoryAcc).permission_objects
    rw [e1, e2]; exact g4
  · show ((pre ++ (p, ParseOutcome.parseFailure e) :: post).foldl scanStep
        initDirectoryAcc).attribute_permissions =
      ((pre ++ post).foldl scanStep initDirectoryAcc).attribute_permissions
    rw [e1, e2]; exact g5
  · cases inc with
    | true =>
      show setUnion
          ((pre ++ (p, ParseOutcome.parseFailure e) :: post).foldl scanStep
            initDirectoryAcc).bot_permissions
          ((pre ++ (p, ParseOutcome.parseFailure e) :: post).foldl scanStep
            initDirectoryAcc).inferred_permissions =
        setUnion ((pre ++ post).foldl scanStep initDirectoryAcc).bot_permissions
          ((pre ++ post).foldl scanStep initDirectoryAcc).inferred_permissions
      rw [e1, e2, g2, g3]
    | false =>
      show ((pre ++ (p, ParseOutcome.parseFailure e) :: post).foldl scanStep
          initDirectoryAcc).bot_permissions =
        ((pre ++ post).foldl scanStep initDirectoryAcc).bot_permissions
      rw [e1, e2]; exact g2
  · show ((pre ++ (p, ParseOutcome.parseFailure e) :: post).foldl scanStep
        initDirectoryAcc).files_scanned =
      ((pre ++ post).foldl scanStep initDirectoryAcc).files_scanned + 1
    rw [e1, e2]; exact g6
  · show ((pre ++ (p, ParseOutcome.parseFailure e) :: post).foldl scanStep
        initDirectoryAcc).files_with_errors =
      ((pre ++ post).foldl scanStep initDirectoryAcc).files_with_errors + 1
    rw [e1, e2]; exact g7

/-- Claim C7: `files_with_errors` counts exactly the files whose scan
produced at least one warning of any kind; a file that reads, decodes and
parses successfully but mentions an unknown permission is counted, so the
counter can exceed the number of files that actually failed the
read/decode/parse pipeline. -/
theorem claim_c7 :
    (∀ (files : List (String × ParseOutcome)) (inc : Bool),
      (scan_directory files inc).files_with_errors =
        files.countP (fun f => !(scan_file f.1 f.2).warnings.isEmpty)) ∧
    (scan_directory [("bot.py", ParseOutcome.parsedModule [teleportDef])]
      true).files_with_errors = 1 ∧
    List.countP (fun f => isFailureOutcome f.2)
      [(("bot.py" : String), ParseOutcome.parsedModule [teleportDef])] = 0 ∧
    (scan_directory [("bot.py", ParseOutcome.parsedModule [teleportDef])]
      true).warnings = ["Unknown permission: teleport"] := by
  refine ⟨?_, rfl, rfl, rfl⟩
  intro files inc
  show (files.foldl scanStep initDirectoryAcc).files_with_errors = _
  rw [foldl_scanStep_fwe]
  show 0 + _ = _
  rw [Nat.zero_add]

/-- Claim C8: the invite-link permission set is
`bot_permissions ∪ inferred_permissions` when `include_inferred` is enabled
and `bot_permissions` alone when it is disabled (the user, object and
attribute sets never enter it). -/
theorem claim_c8 :
    ∀ files : List (String × ParseOutcome),
      (scan_directory files true).all_bot_permissions =
        setUnion (scan_directory files true).bot_permissions
          (scan_directory files true).inferred_permissions ∧
      (scan_directory files false).all_bot_permissions =
        (scan_directory files false).bot_permissions :=
  fun _ => ⟨rfl, rfl⟩
